import Mathlib

/-!
Shallow embedding of the supplier-sourcing backend (`src/backend/main.py`)
and verification of the specification's claims about it.

Modelling conventions:
* Python strings are Lean `String`; Python `int` is `Int`; `float` seconds
  (elapsed wall-clock time) are `Rat`.
* `datetime.now().strftime(...)` timestamps are abstracted to a fixed clock
  reading carried in the environment (their content is irrelevant to every
  claim).
* The external services (Exa websets, OpenAI chat completions) are opaque
  environment parameters: a call either returns a value (`Except.ok`) or
  raises (`Except.error ()`), and `main.py`'s `try/except` blocks become
  `match` on that outcome.
* Python's per-process randomized `hash : str -> int` is an opaque
  parameter `pyHash : String → Int`; `abs` is `Int.natAbs`.
* The regex extractions over `str(item)` in `parse_exa_webset_items`
  (LinkedIn URL, `name='...'` capture, email) are modelled as the three
  optional fields of `RawItem`: each field is the (already stripped)
  result the corresponding regex search would produce on that item.
* JSON responses of the two endpoints are association lists
  `List (String × Value)` so that the presence/absence of keys
  (`cached`, `suppliers`, `similarity`, ...) is part of the model.
-/

namespace TactoTrack

/-- Buyer requirement, mirroring the pydantic model `BuyerRequirement`
(`main.py` lines 70-79). -/
structure BuyerRequirement where
  companyName : String
  contactName : String
  email : String
  phone : String
  productDescription : String
  quantity : String
  budgetRange : String
  timeline : String
  specifications : Option String
deriving Repr, DecidableEq

/-- One role-tagged message of a conversation log (the dicts appended to
`conversation` / `conversation_log` in `main.py`). -/
structure Message where
  role : String
  content : String
  timestamp : String
deriving Repr, DecidableEq

/-- Supplier match, mirroring the pydantic model `SupplierMatch`
(`main.py` lines 82-90). -/
structure SupplierMatch where
  name : String
  contact_email : String
  contact_phone : String
  website : String
  location : String
  match_score : Int
  capabilities : List String
  conversation_log : List Message
deriving Repr, DecidableEq

/-- JSON-ish value appearing in an endpoint response. -/
inductive Value where
  | s : String → Value
  | n : Nat → Value
  | suppliers : List SupplierMatch → Value
deriving Repr, DecidableEq

/-- Endpoint response: an ordered association list of JSON keys, so that
which keys a response carries is explicit in the model. -/
abbrev Response := List (String × Value)

/-- Look a key up in a response (first occurrence). -/
def respGet : Response → String → Option Value
  | [], _ => none
  | (k, v) :: rest, key => if k = key then some v else respGet rest key

/-- Entry of the in-memory `investigations` dict (`main.py` lines 404-412). -/
structure Investigation where
  status : String
  progress : Nat
  message : String
  requirement : BuyerRequirement
  created_at : Rat
  webset_id : Option String
deriving Repr, DecidableEq

/-- The in-memory `investigations` registry (`main.py` line 105): a Python
dict from identifier to entry. -/
def Registry := String → Option Investigation

/-- Empty registry. -/
def emptyReg : Registry := fun _ => none

/-- Dict assignment `investigations[id] = inv`: overwrites any previous
entry under the same key. -/
def Registry.store (reg : Registry) (id : String) (inv : Investigation) : Registry :=
  fun k => if k = id then some inv else reg k

/-- The in-memory `websets` dict (`main.py` line 106). -/
def WebsetMap := String → Option String

/-- Empty webset map. -/
def emptyWebsets : WebsetMap := fun _ => none

/-- Dict assignment `websets[id] = wid`. -/
def WebsetMap.store (ws : WebsetMap) (id : String) (wid : String) : WebsetMap :=
  fun k => if k = id then some wid else ws k

/-- Observable step performed while handling a submission; used to record
the order of external calls relative to the HTTP response. -/
inductive Event where
  | callWebsetCreate
  | sleepSeconds (n : Nat)
  | storeInvestigation (id : String)
  | respond
deriving Repr, DecidableEq

/-- Environment of one `POST /api/v1/requirements` call: whether the Exa
client is configured, the outcome of `exa_client.websets.create` (ok id or
raised exception), the current wall-clock time and the process's string
hash. -/
structure SubmitEnv where
  exaAvailable : Bool
  websetResult : Except Unit String
  now : Rat
  pyHash : String → Int

/-- Investigation identifier (`main.py` line 385):
`f"INV-{abs(hash(requirement.email + str(requirement.companyName))) % 10000000}"`. -/
def investigationId (pyHash : String → Int) (r : BuyerRequirement) : String :=
  "INV-" ++ toString ((pyHash (r.email ++ r.companyName)).natAbs % 10000000)

/-- Embedding of `create_exa_webset` (`main.py` lines 109-149): when the
Exa client is configured it calls `websets.create`; on success it sleeps
60 seconds and returns the webset id, on exception it returns `None`.
Returns the events it performs together with its result. -/
def create_exa_webset (env : SubmitEnv) : List Event × Option String :=
  if env.exaAvailable then
    match env.websetResult with
    | .ok wid => ([Event.callWebsetCreate, Event.sleepSeconds 60], some wid)
    | .error _ => ([Event.callWebsetCreate], none)
  else ([], none)

/-- The `if exa_client:` guard around the `create_exa_webset` call inside
`process_requirements` (`main.py` lines 394-395). -/
def websetOutcome (env : SubmitEnv) : List Event × Option String :=
  if env.exaAvailable then create_exa_webset env else ([], none)

/-- Result of one `process_requirements` call: the ordered events it
performed, the updated registries, and the HTTP response body. -/
structure SubmitOutcome where
  events : List Event
  reg : Registry
  websets : WebsetMap
  response : Response

/-- Message stored with a fresh investigation (`main.py` line 408). -/
def initMessage : String := "Initializing AI agents and searching for suppliers..."

/-- Embedding of `process_requirements` (`main.py` lines 379-418), the
handler of `POST /api/v1/requirements`: derives the identifier from the
hash of email + company name, synchronously runs `create_exa_webset` when
Exa is configured, stores the fresh investigation, and responds. -/
def process_requirements (env : SubmitEnv) (reg : Registry) (ws : WebsetMap)
    (r : BuyerRequirement) : SubmitOutcome :=
  let invId := investigationId env.pyHash r
  let out := websetOutcome env
  let webset_id := out.2
  let ws' := match webset_id with
    | some wid => WebsetMap.store ws invId wid
    | none => ws
  let reg' := Registry.store reg invId
    { status := "processing", progress := 0, message := initMessage,
      requirement := r, created_at := env.now, webset_id := webset_id }
  { events := out.1 ++ [Event.storeInvestigation invId, Event.respond],
    reg := reg', websets := ws',
    response :=
      [("investigation_id", Value.s invId),
       ("status", Value.s "processing"),
       ("message", Value.s "Investigation started. Poll /api/v1/investigations/{id}/status for updates.")] }

/-- Truthiness of an optional string JSON field (`dict.get` result): `None`
and `""` are falsy in Python. -/
def truthyOptStr : Option String → Bool
  | none => false
  | some s => s != ""

/-- Truthiness of an optional boolean JSON field. -/
def truthyOptBool : Option Bool → Bool
  | none => false
  | some b => b

/-- Result of `json.loads` applied to the extraction response, accessed via
`dict.get`: either field may be missing or null. -/
structure Extracted where
  is_decision_maker : Option Bool
  contact_email : Option String
  reason : Option String
deriving Repr, DecidableEq

/-- The `next_action` dicts built in `simulate_email_conversation`
(`main.py` lines 248-258). -/
inductive NextAction where
  | contact_new_email (email : String)
  | continue_with_current_contact (email : String)
deriving Repr, DecidableEq

/-- Return value of `simulate_email_conversation`; `reason` is `some` only
on the successful-extraction path (the fallback dicts carry no such key). -/
structure SimResult where
  conversation : List Message
  is_decision_maker : Bool
  next_action : Option NextAction
  reason : Option String
deriving Repr, DecidableEq

/-- Environment of the conversation simulator: whether the OpenAI client is
configured, the outcome (value or raised exception) of the reply-generation
call and of the extraction call (`chat.completions.create` followed by
`json.loads`), keyed by supplier name and email, and the abstracted clock
reading used for every timestamp. -/
structure SimEnv where
  openaiAvailable : Bool
  replyOf : String → String → Except Unit String
  extractOf : String → String → Except Unit Extracted
  now : String

/-- Python string slice `s[:n]` (slicing is by characters). -/
def pySlice (s : String) (n : Nat) : String := String.mk (s.data.take n)

/-- The outreach email template (`main.py` lines 173-187). -/
def outreachMessage (r : BuyerRequirement) : String :=
  "Subject: Inquiry: " ++ pySlice r.productDescription 50
    ++ "\n\nHi,\n\nI\x27m reaching out from " ++ r.companyName
    ++ " regarding our need for " ++ r.productDescription
    ++ ".\n\nQuick question: are you the right person to speak with about this request? If not, could you please forward me the email of the correct contact or reply with their contact email?\n\nBrief requirements:\n- Quantity: "
    ++ r.quantity ++ "\n- Budget: " ++ r.budgetRange
    ++ "\n- Timeline: " ++ r.timeline
    ++ "\n\nBest regards,\n" ++ r.contactName

/-- The supplier message appended by the exception fallback
(`main.py` line 272). -/
def fallbackReply : String :=
  "Thank you for reaching out. Yes, I\x27m the right person to discuss this."

/-- Embedding of `simulate_email_conversation` (`main.py` lines 152-279):
without OpenAI a one-message basic conversation; otherwise buyer outreach,
then the simulated supplier reply, then extraction; any exception in the
`try` block (reply generation, or extraction / `json.loads`) falls back to
appending a canned supplier reply and returning
`is_decision_maker=True, next_action=None`. -/
def simulate_email_conversation (env : SimEnv) (supplier_name supplier_email : String)
    (r : BuyerRequirement) : SimResult :=
  if !env.openaiAvailable then
    { conversation :=
        [{ role := "assistant", content := "Found contact at " ++ supplier_email,
           timestamp := env.now }],
      is_decision_maker := true, next_action := none, reason := none }
  else
    let conv0 : List Message :=
      [{ role := "buyer", content := outreachMessage r, timestamp := env.now }]
    match env.replyOf supplier_name supplier_email with
    | .error _ =>
      { conversation :=
          conv0 ++ [{ role := "supplier", content := fallbackReply, timestamp := env.now }],
        is_decision_maker := true, next_action := none, reason := none }
    | .ok reply =>
      let conv1 := conv0 ++ [{ role := "supplier", content := reply, timestamp := env.now }]
      match env.extractOf supplier_name supplier_email with
      | .error _ =>
        { conversation :=
            conv1 ++ [{ role := "supplier", content := fallbackReply, timestamp := env.now }],
          is_decision_maker := true, next_action := none, reason := none }
      | .ok ex =>
        let next_action : Option NextAction :=
          if !truthyOptBool ex.is_decision_maker && truthyOptStr ex.contact_email then
            some (NextAction.contact_new_email (ex.contact_email.getD ""))
          else if truthyOptBool ex.is_decision_maker then
            some (NextAction.continue_with_current_contact supplier_email)
          else none
        { conversation := conv1,
          is_decision_maker := ex.is_decision_maker.getD false,
          next_action := next_action,
          reason := some (ex.reason.getD "") }

/-- Character-level model of Python's `str.title()`: the first letter of
every alphabetic run is upper-cased, the rest lower-cased. -/
def pyTitleAux : Bool → List Char → List Char
  | _, [] => []
  | prevAlpha, c :: cs =>
    (if c.isAlpha then (if prevAlpha then c.toLower else c.toUpper) else c)
      :: pyTitleAux c.isAlpha cs

/-- Python `str.title()`. -/
def pyTitle (s : String) : String := String.mk (pyTitleAux false s.data)

/-- Split a character list at every character satisfying `p`, keeping
empty pieces (the behaviour of Python `str.split(sep)`). -/
def splitPredAux (p : Char → Bool) : List Char → List Char → List (List Char)
  | [], acc => [acc.reverse]
  | c :: cs, acc =>
    if p c then acc.reverse :: splitPredAux p cs []
    else splitPredAux p cs (c :: acc)

/-- Python `str.split(sep)` for a one-character separator. -/
def pySplitChar (sep : Char) (s : String) : List String :=
  (splitPredAux (fun c => c == sep) s.data []).map String.mk

/-- Python `str.split()` with no argument: split on whitespace runs,
dropping empty pieces. -/
def pySplitWhitespace (s : String) : List String :=
  ((splitPredAux Char.isWhitespace s.data []).map String.mk).filter (fun w => w != "")

/-- One raw webset item as seen through the three regex searches that
`parse_exa_webset_items` runs over `str(item)` (`main.py` lines 299-312):
each field is the stripped match the corresponding regex would yield, or
`none` when the regex does not match (for the LinkedIn regex the code then
uses `""`, for the name `"Unknown Contact"`, for the email `None`). -/
structure RawItem where
  linkedin : Option String
  nameField : Option String
  emailField : Option String
deriving Repr, DecidableEq

/-- Company display name derived from the email domain (`main.py`
lines 317-319): `email.split('@')[1].split('.')[0].title()` followed by the
first word of the name (or `'Company'` when the name is empty). -/
def companyNameOf (name email : String) : String :=
  let domain := pyTitle ((pySplitChar '.' ((pySplitChar '@' email).getD 1 "")).headD "")
  domain ++ " " ++ (if name ≠ "" then (pySplitWhitespace name).headD "Company" else "Company")

/-- Construction of one `SupplierMatch` in the body of the parsing loop
(`main.py` lines 316-368); `numResults` is `len(results)` at that point,
which feeds the score `85 + len(results) * 2`. -/
def buildMatch (env : SimEnv) (r : BuyerRequirement) (linkedin name email : String)
    (numResults : Nat) : SupplierMatch :=
  let company_name := companyNameOf name email
  let match_score : Int := 85 + (numResults : Int) * 2
  let capabilities :=
    ["Supplier for " ++ r.productDescription, "Contact via email: " ++ email]
      ++ (if linkedin ≠ "" then ["LinkedIn verified"] else [])
  let sim := simulate_email_conversation env company_name email r
  let log1 := match sim.next_action with
    | some (NextAction.contact_new_email e) =>
        sim.conversation ++
          [{ role := "system",
             content := "⚠️ Not decision maker. Recommended next contact: " ++ e,
             timestamp := env.now }]
    | some (NextAction.continue_with_current_contact _) =>
        sim.conversation ++
          [{ role := "system",
             content := "✓ Confirmed decision maker. Ready for detailed discussion.",
             timestamp := env.now }]
    | none => sim.conversation
  let log2 := match sim.reason with
    | some reasonStr =>
        if reasonStr ≠ "" then
          log1 ++ [{ role := "system", content := "Analysis: " ++ reasonStr,
                     timestamp := env.now }]
        else log1
    | none => log1
  { name := company_name, contact_email := email,
    contact_phone := "Contact via email for phone",
    website := if linkedin ≠ "" then linkedin else "https://" ++ (pySplitChar '@' email).getD 1 "",
    location := "Location TBD - verify via initial contact",
    match_score := match_score, capabilities := capabilities,
    conversation_log := log2 }

/-- The `for item in items` loop of `parse_exa_webset_items` (`main.py`
lines 298-371): an item is kept only when its email is truthy, unseen, and
its LinkedIn string is truthy; the loop breaks once 10 matches are built. -/
def parseLoop (env : SimEnv) (r : BuyerRequirement) :
    List RawItem → List SupplierMatch → List String → List SupplierMatch
  | [], results, _ => results
  | item :: rest, results, seen =>
    let linkedin := item.linkedin.getD ""
    let name := item.nameField.getD "Unknown Contact"
    match item.emailField with
    | none => parseLoop env r rest results seen
    | some email =>
      if email ≠ "" ∧ email ∉ seen ∧ linkedin ≠ "" then
        let sm := buildMatch env r linkedin name email results.length
        let results2 := results ++ [sm]
        if 10 ≤ results2.length then results2
        else parseLoop env r rest results2 (email :: seen)
      else parseLoop env r rest results seen

/-- Environment of the discovery side: whether the Exa client is configured
and the outcome of `websets.items.list` per webset id (ok item list, or a
raised exception). -/
structure DiscoveryEnv where
  exaAvailable : Bool
  itemsOf : String → Except Unit (List RawItem)

/-- Embedding of `parse_exa_webset_items` (`main.py` lines 282-377):
without the Exa client it returns `[]`; an exception while listing items is
caught and also yields `[]`; otherwise the parsing loop runs. -/
def parse_exa_webset_items (denv : DiscoveryEnv) (env : SimEnv) (webset_id : String)
    (r : BuyerRequirement) : List SupplierMatch :=
  if !denv.exaAvailable then []
  else
    match denv.itemsOf webset_id with
    | .error _ => []
    | .ok data => parseLoop env r data [] []

/-- Specification-side characterisation of which contact emails the parsing
loop retains, in order: scanning the items, an email is kept at its first
occurrence on a record that has a truthy email and a truthy LinkedIn
string. Used to state the amended deduplication claim. -/
def firstEligibleEmails : List RawItem → List String → List String
  | [], _ => []
  | item :: rest, seen =>
    let linkedin := item.linkedin.getD ""
    match item.emailField with
    | none => firstEligibleEmails rest seen
    | some email =>
      if email ≠ "" ∧ email ∉ seen ∧ linkedin ≠ "" then
        email :: firstEligibleEmails rest (email :: seen)
      else firstEligibleEmails rest seen

/-- The elapsed-time status ladder of `get_investigation_status`
(`main.py` lines 441-468): status, progress and message are chosen purely
from the wall-clock seconds elapsed since the investigation was created. -/
def statusFor (elapsed : Rat) : String × Nat × String :=
  if elapsed < 10 then
    ("processing", 15, "Analyzing your requirements with AI...")
  else if elapsed < 20 then
    ("searching", 30, "Searching web for supplier contacts and emails...")
  else if elapsed < 35 then
    ("searching", 50, "Crawling supplier websites and LinkedIn profiles...")
  else if elapsed < 50 then
    ("searching", 70, "Extracting contact information and verifying emails...")
  else if elapsed < 65 then
    ("processing", 90, "Enriching data and matching suppliers to requirements...")
  else
    ("completed", 100, "Investigation complete!")

/-- The hardcoded mock supplier list used as fallback when Exa produced no
suppliers (`main.py` lines 487-541). -/
def mockSuppliers (r : BuyerRequirement) : List SupplierMatch :=
  [{ name := "TechSupply Manufacturing Ltd.",
     contact_email := "sales@techsupply.com",
     contact_phone := "+1-555-0123",
     website := "https://techsupply.com",
     location := "San Jose, CA, USA",
     match_score := 92,
     capabilities :=
       ["ISO 9001:2015 certified", "15+ years in industrial sensors",
        "Digital I2C expertise", "IP67 housing production"],
     conversation_log :=
       [{ role := "assistant",
          content := "Sent inquiry to sales@techsupply.com for " ++ r.quantity
            ++ " temperature sensors",
          timestamp := "2024-01-15 10:30:00" },
        { role := "assistant",
          content := "Received positive response. Company can meet requirements with 8-10 week lead time.",
          timestamp := "2024-01-15 14:45:00" }] },
   { name := "GlobalSensor Industries",
     contact_email := "info@globalsensor.com",
     contact_phone := "+1-555-0456",
     website := "https://globalsensor.com",
     location := "Shenzhen, China",
     match_score := 87,
     capabilities :=
       ["Specialized in temperature sensors", "I2C interfaces",
        "Automotive-grade components"],
     conversation_log :=
       [{ role := "assistant",
          content := "Contacted GlobalSensor Industries regarding temperature sensor requirements",
          timestamp := "2024-01-15 11:00:00" }] },
   { name := "Precision Components Co.",
     contact_email := "quotes@precisioncomp.com",
     contact_phone := "+1-555-0789",
     website := "https://precisioncomp.com",
     location := "Munich, Germany",
     match_score := 83,
     capabilities :=
       ["Custom sensor solutions", "IP67/IP68 rated housings",
        "-40°C to 150°C range"],
     conversation_log :=
       [{ role := "assistant",
          content := "Sent quote request to Precision Components Co.",
          timestamp := "2024-01-15 11:30:00" }] }]

/-- Embedding of `get_investigation_status` (`main.py` lines 421-557), the
handler of `GET /api/v1/investigations/{id}/status`: unknown identifiers
get a fixed error-shaped payload; known ones get status/progress/message
from the elapsed-time ladder, and — only when that status is
`"completed"` — a `suppliers` key holding the parsed Exa matches, or the
mock list when parsing produced none.  (The `try/except` around the parse
call is dead code in the model: `parse_exa_webset_items` already catches
its own exceptions and returns a list.) -/
def get_investigation_status (reg : Registry) (denv : DiscoveryEnv) (env : SimEnv)
    (now : Rat) (investigation_id : String) : Response :=
  match reg investigation_id with
  | none =>
    [("investigation_id", Value.s investigation_id),
     ("status", Value.s "error"),
     ("progress", Value.n 0),
     ("message", Value.s "Investigation not found")]
  | some inv =>
    let elapsed := now - inv.created_at
    let st := statusFor elapsed
    if st.1 = "completed" then
      let fromExa :=
        match inv.webset_id with
        | some wid =>
          if wid ≠ "" ∧ denv.exaAvailable then
            parse_exa_webset_items denv env wid inv.requirement
          else []
        | none => []
      let suppliers := if fromExa = [] then mockSuppliers inv.requirement else fromExa
      [("investigation_id", Value.s investigation_id),
       ("status", Value.s st.1),
       ("progress", Value.n st.2.1),
       ("message", Value.s st.2.2),
       ("suppliers", Value.suppliers suppliers)]
    else
      [("investigation_id", Value.s investigation_id),
       ("status", Value.s st.1),
       ("progress", Value.n st.2.1),
       ("message", Value.s st.2.2)]

/-!
Concrete fixtures used by witnesses and counterexamples.
-/

/-- Sample stand-in for the per-process randomized string hash; any
function `String → Int` models one process run. -/
def sampleHash : String → Int := fun s => (s.length : Int)

/-- Concrete buyer requirement. -/
def reqA : BuyerRequirement :=
  { companyName := "Acme", contactName := "Pat Lee", email := "buyer@acme.com",
    phone := "123", productDescription := "M8 bolts", quantity := "10000",
    budgetRange := "$5000", timeline := "Q1", specifications := none }

/-- Same buyer and company as `reqA`, different product description. -/
def reqB : BuyerRequirement := { reqA with productDescription := "steel rods" }

/-- Submission environment: Exa configured, webset creation succeeds,
clock at 0. -/
def envA : SubmitEnv := ⟨true, Except.ok "ws1", 0, sampleHash⟩

/-- Same process as `envA`, 100 seconds later. -/
def envB : SubmitEnv := { envA with now := 100 }

/-- Simulator environment with the OpenAI client unavailable. -/
def simOff : SimEnv :=
  ⟨false, fun _ _ => Except.error (), fun _ _ => Except.error (), "t0"⟩

/-- Simulator environment where reply generation succeeds but the
extraction response is malformed (`json.loads` raises). -/
def simMalformed : SimEnv :=
  ⟨true, fun _ _ => Except.ok "Thanks, I handle procurement.",
   fun _ _ => Except.error (), "t0"⟩

/-- Discovery environment with the Exa client unavailable. -/
def denvNone : DiscoveryEnv := ⟨false, fun _ => Except.error ()⟩

/-- Discovery environment where every webset lists zero items. -/
def denvZero : DiscoveryEnv := ⟨true, fun _ => Except.ok []⟩

/-- Stored investigation for `reqA` created at time 0 with webset `ws1`
(the entry `process_requirements envA` would store under `INV-18`). -/
def invA : Investigation := ⟨"processing", 0, initMessage, reqA, 0, some "ws1"⟩

/-- Registry holding `invA` under its identifier. -/
def regA : Registry := Registry.store emptyReg "INV-18" invA

/-- Two raw items carrying the same contact email; the first lacks a
LinkedIn URL, the second has one. -/
def itemsSharedEmail : List RawItem :=
  [{ linkedin := none, nameField := some "Alice Smith", emailField := some "x@acme.com" },
   { linkedin := some "https://linkedin.com/in/bob", nameField := some "Bob Jones",
     emailField := some "x@acme.com" }]

/-- Nine raw items with pairwise distinct contact emails, each with a
LinkedIn URL. -/
def itemsNine : List RawItem :=
  (List.range 9).map (fun i =>
    { linkedin := some "https://linkedin.com/in/p", nameField := some "P Q",
      emailField := some ("p" ++ toString i ++ "@s.co") })

/-!
Helper lemmas about the parsing loop and the status ladder.
-/

/-- The contact email of a built match is the email the loop keyed it by. -/
theorem buildMatch_contact_email (env : SimEnv) (r : BuyerRequirement)
    (linkedin name email : String) (k : Nat) :
    (buildMatch env r linkedin name email k).contact_email = email := rfl

/-- Contact emails produced by the parsing loop are exactly the first 10
first-eligible-occurrence emails of the remaining items, appended to the
accumulator's emails. -/
theorem parseLoop_map_email (env : SimEnv) (r : BuyerRequirement) :
    ∀ (items : List RawItem) (seen : List String) (results : List SupplierMatch),
      results.length < 10 →
      (parseLoop env r items results seen).map (fun sm => sm.contact_email)
        = results.map (fun sm => sm.contact_email)
          ++ (firstEligibleEmails items seen).take (10 - results.length) := by
  intro items
  induction items with
  | nil => intro seen results h; simp [parseLoop, firstEligibleEmails]
  | cons item rest ih =>
    intro seen results h
    simp only [parseLoop, firstEligibleEmails]
    cases hm : item.emailField with
    | none => dsimp only; exact ih seen results h
    | some email =>
      dsimp only
      by_cases hg : email ≠ "" ∧ email ∉ seen ∧ item.linkedin.getD "" ≠ ""
      · rw [if_pos hg, if_pos hg]
        by_cases h10 : 10 ≤ (results ++ [buildMatch env r (item.linkedin.getD "")
            (item.nameField.getD "Unknown Contact") email results.length]).length
        · rw [if_pos h10]
          simp only [List.length_append, List.length_singleton] at h10
          rw [show 10 - results.length = 1 from by omega]
          simp [buildMatch_contact_email]
        · rw [if_neg h10]
          simp only [List.length_append, List.length_singleton] at h10
          have hlen : (results ++ [buildMatch env r (item.linkedin.getD "")
              (item.nameField.getD "Unknown Contact") email results.length]).length < 10 := by
            simp only [List.length_append, List.length_singleton]; omega
          rw [ih (email :: seen) _ hlen]
          simp only [List.length_append, List.length_singleton]
          rw [show 10 - results.length = (10 - (results.length + 1)) + 1 from by omega]
          simp [List.take_succ_cons, buildMatch_contact_email]
      · rw [if_neg hg, if_neg hg]
        exact ih seen results h

/-- An email retained by `firstEligibleEmails` was not already seen. -/
theorem firstEligibleEmails_not_mem_seen :
    ∀ (items : List RawItem) (seen : List String) (e : String),
      e ∈ firstEligibleEmails items seen → e ∉ seen := by
  intro items
  induction items with
  | nil => intro seen e he; simp [firstEligibleEmails] at he
  | cons item rest ih =>
    intro seen e he
    simp only [firstEligibleEmails] at he
    cases hm : item.emailField with
    | none => rw [hm] at he; exact ih seen e he
    | some email =>
      rw [hm] at he
      dsimp only at he
      by_cases hg : email ≠ "" ∧ email ∉ seen ∧ item.linkedin.getD "" ≠ ""
      · rw [if_pos hg] at he
        rcases List.mem_cons.mp he with rfl | htail
        · exact hg.2.1
        · intro hs
          exact ih (email :: seen) e htail (List.mem_cons_of_mem _ hs)
      · rw [if_neg hg] at he
        exact ih seen e he

/-- The emails retained by `firstEligibleEmails` are pairwise distinct. -/
theorem firstEligibleEmails_nodup :
    ∀ (items : List RawItem) (seen : List String),
      (firstEligibleEmails items seen).Nodup := by
  intro items
  induction items with
  | nil => intro seen; simp [firstEligibleEmails]
  | cons item rest ih =>
    intro seen
    simp only [firstEligibleEmails]
    cases hm : item.emailField with
    | none => exact ih seen
    | some email =>
      dsimp only
      by_cases hg : email ≠ "" ∧ email ∉ seen ∧ item.linkedin.getD "" ≠ ""
      · rw [if_pos hg]
        refine List.nodup_cons.mpr ⟨?_, ih (email :: seen)⟩
        intro hmem
        exact firstEligibleEmails_not_mem_seen rest (email :: seen) email hmem
          (List.mem_cons_self _ _)
      · rw [if_neg hg]
        exact ih seen

/-- Every match produced by the parsing loop comes from the accumulator or
from an input item that carries that contact email and a truthy LinkedIn
string. -/
theorem parseLoop_mem_source (env : SimEnv) (r : BuyerRequirement) :
    ∀ (items : List RawItem) (seen : List String) (results : List SupplierMatch),
      ∀ sm ∈ parseLoop env r items results seen,
        sm ∈ results
        ∨ ∃ it ∈ items, it.emailField = some sm.contact_email ∧ it.linkedin.getD "" ≠ "" := by
  intro items
  induction items with
  | nil => intro seen results sm hsm; exact Or.inl hsm
  | cons item rest ih =>
    intro seen results sm hsm
    simp only [parseLoop] at hsm
    cases hm : item.emailField with
    | none =>
      rw [hm] at hsm
      rcases ih seen results sm hsm with h | ⟨it, hit, he, hl⟩
      · exact Or.inl h
      · exact Or.inr ⟨it, List.mem_cons_of_mem _ hit, he, hl⟩
    | some email =>
      rw [hm] at hsm
      dsimp only at hsm
      by_cases hg : email ≠ "" ∧ email ∉ seen ∧ item.linkedin.getD "" ≠ ""
      · rw [if_pos hg] at hsm
        by_cases h10 : 10 ≤ (results ++ [buildMatch env r (item.linkedin.getD "")
            (item.nameField.getD "Unknown Contact") email results.length]).length
        · rw [if_pos h10] at hsm
          rcases List.mem_append.mp hsm with h | h
          · exact Or.inl h
          · rcases List.mem_singleton.mp h with rfl
            exact Or.inr ⟨item, List.mem_cons_self _ _, by
              rw [hm, buildMatch_contact_email], hg.2.2⟩
        · rw [if_neg h10] at hsm
          rcases ih (email :: seen) _ sm hsm with h | ⟨it, hit, he, hl⟩
          · rcases List.mem_append.mp h with h2 | h2
            · exact Or.inl h2
            · rcases List.mem_singleton.mp h2 with rfl
              exact Or.inr ⟨item, List.mem_cons_self _ _, by
                rw [hm, buildMatch_contact_email], hg.2.2⟩
          · exact Or.inr ⟨it, List.mem_cons_of_mem _ hit, he, hl⟩
      · rw [if_neg hg] at hsm
        rcases ih seen results sm hsm with h | ⟨it, hit, he, hl⟩
        · exact Or.inl h
        · exact Or.inr ⟨it, List.mem_cons_of_mem _ hit, he, hl⟩

/-- From 65 seconds on, the status ladder is pinned at `completed`. -/
theorem statusFor_completed (e : Rat) (h : 65 ≤ e) :
    statusFor e = ("completed", 100, "Investigation complete!") := by
  unfold statusFor
  split_ifs with h1 h2 h3 h4 h5 <;> first | rfl | linarith

/-- The status ladder only ever yields these three status strings. -/
theorem statusFor_fst_cases (e : Rat) :
    (statusFor e).1 = "processing" ∨ (statusFor e).1 = "searching"
      ∨ (statusFor e).1 = "completed" := by
  unfold statusFor; split_ifs <;> simp

/-- For a registered identifier, the status field of the response is the
status ladder evaluated at the elapsed wall-clock time, whatever the
discovery or simulation environments hold. -/
theorem getStatus_status_of_known (reg : Registry) (denv : DiscoveryEnv) (env : SimEnv)
    (now : Rat) (id : String) (inv : Investigation) (h : reg id = some inv) :
    respGet (get_investigation_status reg denv env now id) "status"
      = some (Value.s (statusFor (now - inv.created_at)).1) := by
  simp only [get_investigation_status, h]
  by_cases hc : (statusFor (now - inv.created_at)).1 = "completed"
  · rw [if_pos hc]; simp [respGet]
  · rw [if_neg hc]; simp [respGet]

/-!
Claim theorems.
-/

/-- Claim C1 (code-bug evidence): with the Exa client configured, the
submit handler invokes the discovery adapter — webset creation followed by
a 60-second sleep — before it stores the investigation and before it
responds.  Submission therefore does block on discovery, contrary to the
claim and to the handler docstring "Returns immediately with
investigation_id and processing status"; evaluated here at a concrete
requirement. -/
theorem submit_blocks_on_discovery :
    (process_requirements envA emptyReg emptyWebsets reqA).events
      = [Event.callWebsetCreate, Event.sleepSeconds 60,
         Event.storeInvestigation "INV-18", Event.respond] := by decide

/-- Claim C2 counterexample: submitting the same requirement twice in the
same process (second call 100 seconds later), the second response carries
no `cached`, `suppliers` or `similarity` key at all — its keys are exactly
`investigation_id`, `status`, `message` — and the registry entry under the
shared identifier now holds a different, freshly created investigation, so
there is no cache hit and a new Investigation is stored. -/
theorem resubmission_no_cache_counterexample :
    respGet (process_requirements envB (process_requirements envA emptyReg emptyWebsets reqA).reg
        (process_requirements envA emptyReg emptyWebsets reqA).websets reqA).response "cached" = none
    ∧ respGet (process_requirements envB (process_requirements envA emptyReg emptyWebsets reqA).reg
        (process_requirements envA emptyReg emptyWebsets reqA).websets reqA).response "suppliers" = none
    ∧ respGet (process_requirements envB (process_requirements envA emptyReg emptyWebsets reqA).reg
        (process_requirements envA emptyReg emptyWebsets reqA).websets reqA).response "similarity" = none
    ∧ (process_requirements envB (process_requirements envA emptyReg emptyWebsets reqA).reg
        (process_requirements envA emptyReg emptyWebsets reqA).websets reqA).response.map Prod.fst
      = ["investigation_id", "status", "message"]
    ∧ (process_requirements envB (process_requirements envA emptyReg emptyWebsets reqA).reg
        (process_requirements envA emptyReg emptyWebsets reqA).websets reqA).reg "INV-18"
      ≠ (process_requirements envA emptyReg emptyWebsets reqA).reg "INV-18" := by decide

/-- Claim C2 (amended): the service implements no investigation cache.
A resubmission of the very same requirement is processed afresh: the
second response carries exactly the keys `investigation_id`, `status`,
`message` (never `cached`, `suppliers` or `similarity`), its status is
`processing`, and a new Investigation record (fresh creation time and
webset outcome) is stored under the derived identifier, overwriting the
previous entry. -/
theorem resubmission_reprocessed_uncached (env1 env2 : SubmitEnv) (reg : Registry)
    (ws : WebsetMap) (r : BuyerRequirement) :
    (process_requirements env2 (process_requirements env1 reg ws r).reg
        (process_requirements env1 reg ws r).websets r).response.map Prod.fst
      = ["investigation_id", "status", "message"]
    ∧ respGet (process_requirements env2 (process_requirements env1 reg ws r).reg
        (process_requirements env1 reg ws r).websets r).response "status"
      = some (Value.s "processing")
    ∧ (process_requirements env2 (process_requirements env1 reg ws r).reg
        (process_requirements env1 reg ws r).websets r).reg (investigationId env2.pyHash r)
      = some { status := "processing", progress := 0, message := initMessage,
               requirement := r, created_at := env2.now,
               webset_id := (websetOutcome env2).2 } := by
  refine ⟨rfl, rfl, ?_⟩
  simp [process_requirements, Registry.store]

/-- Claim C3 counterexample: for a registered investigation whose webset
lists zero items, polling after 65 seconds reports the terminal status
`completed` — but with the hardcoded, non-empty mock supplier list rather
than the empty list the claim requires. -/
theorem zero_candidates_mock_counterexample :
    respGet (get_investigation_status regA denvZero simOff 70 "INV-18") "status"
      = some (Value.s "completed")
    ∧ respGet (get_investigation_status regA denvZero simOff 70 "INV-18") "suppliers"
      = some (Value.suppliers (mockSuppliers reqA))
    ∧ mockSuppliers reqA ≠ [] := by
  have hsf : statusFor (70 : Rat) = ("completed", 100, "Investigation complete!") :=
    statusFor_completed 70 (by norm_num)
  have hr : regA "INV-18" = some invA := rfl
  refine ⟨?_, ?_, by simp [mockSuppliers]⟩ <;>
    simp [get_investigation_status, hr, hsf, invA, denvZero,
          parse_exa_webset_items, parseLoop, respGet, mockSuppliers]

/-- Claim C3 (amended): when discovery returns zero candidates, every
registered investigation does eventually (once 65 seconds have elapsed)
reach the terminal status `completed` and is never stuck — but the
response's `suppliers` field is the hardcoded non-empty mock list of three
suppliers, not the empty list. -/
theorem zero_candidates_completed_with_mocks (reg : Registry) (denv : DiscoveryEnv)
    (env : SimEnv) (now : Rat) (id wid : String) (inv : Investigation)
    (hreg : reg id = some inv) (hw : inv.webset_id = some wid) (hw0 : wid ≠ "")
    (hx : denv.exaAvailable = true) (hz : denv.itemsOf wid = Except.ok [])
    (ht : 65 ≤ now - inv.created_at) :
    respGet (get_investigation_status reg denv env now id) "status"
      = some (Value.s "completed")
    ∧ respGet (get_investigation_status reg denv env now id) "suppliers"
      = some (Value.suppliers (mockSuppliers inv.requirement))
    ∧ mockSuppliers inv.requirement ≠ [] := by
  have hsf := statusFor_completed (now - inv.created_at) ht
  have hparse : parse_exa_webset_items denv env wid inv.requirement = [] := by
    simp [parse_exa_webset_items, hx, hz, parseLoop]
  refine ⟨?_, ?_, by simp [mockSuppliers]⟩ <;>
    simp [get_investigation_status, hreg, hsf, hw, hw0, hx, hparse, respGet, mockSuppliers]

/-- Claim C3 witness: the amended theorem evaluated at the concrete
registry, zero-item discovery and 70 elapsed seconds. -/
theorem zero_candidates_completed_with_mocks_witness :
    respGet (get_investigation_status regA denvZero simOff 70 "INV-18") "suppliers"
      = some (Value.suppliers (mockSuppliers invA.requirement)) :=
  (zero_candidates_completed_with_mocks regA denvZero simOff 70 "INV-18" "ws1" invA
      rfl rfl (by decide) rfl rfl (by norm_num [invA])).2.1

/-- Claim C4: for an identifier absent from the registry, the status
endpoint returns the fixed error-shaped payload naming the unknown id —
status `error`, progress 0, message "Investigation not found" — with no
`suppliers` key; the handler is a total function, so it never raises,
whatever the identifier's content. -/
theorem get_status_unknown_fixed_shape (reg : Registry) (denv : DiscoveryEnv)
    (env : SimEnv) (now : Rat) (id : String) (h : reg id = none) :
    get_investigation_status reg denv env now id
      = [("investigation_id", Value.s id), ("status", Value.s "error"),
         ("progress", Value.n 0), ("message", Value.s "Investigation not found")]
    ∧ respGet (get_investigation_status reg denv env now id) "suppliers" = none := by
  constructor
  · simp [get_investigation_status, h]
  · simp [get_investigation_status, h, respGet]

/-- Claim C4 witness: the unknown-identifier response evaluated on the
empty registry. -/
theorem get_status_unknown_fixed_shape_witness :
    get_investigation_status emptyReg denvNone simOff 0 "INV-0"
      = [("investigation_id", Value.s "INV-0"), ("status", Value.s "error"),
         ("progress", Value.n 0), ("message", Value.s "Investigation not found")] :=
  (get_status_unknown_fixed_shape emptyReg denvNone simOff 0 "INV-0" rfl).1

/-- Claim C5 counterexample: with the registry, the stored investigation
and both adapter environments completely unchanged — no pipeline stage
completed between the two polls — the reported status still moves from
`processing` to `searching` merely because the wall clock advanced from 5
to 15 seconds after submission; the status is a function of elapsed time
alone. -/
theorem status_wall_clock_counterexample :
    respGet (get_investigation_status regA denvZero simOff 5 "INV-18") "status"
      = some (Value.s "processing")
    ∧ respGet (get_investigation_status regA denvZero simOff 15 "INV-18") "status"
      = some (Value.s "searching") := by
  constructor
  · rw [getStatus_status_of_known regA denvZero simOff 5 "INV-18" invA rfl]
    norm_num [statusFor, invA]
  · rw [getStatus_status_of_known regA denvZero simOff 15 "INV-18" invA rfl]
    norm_num [statusFor, invA]

/-- Claim C5 (amended): for every registered investigation, the status
reported by the status endpoint is exactly the wall-clock ladder evaluated
at the seconds elapsed since submission (thresholds 10, 20, 35, 50 and 65
seconds); it does not depend on whether any pipeline stage actually
completed. -/
theorem status_determined_by_elapsed (reg : Registry) (denv : DiscoveryEnv)
    (env : SimEnv) (now : Rat) (id : String) (inv : Investigation)
    (h : reg id = some inv) :
    respGet (get_investigation_status reg denv env now id) "status"
      = some (Value.s (statusFor (now - inv.created_at)).1) :=
  getStatus_status_of_known reg denv env now id inv h

/-- Claim C5 witness: the amended theorem evaluated at a concrete registry
7 seconds after submission. -/
theorem status_determined_by_elapsed_witness :
    respGet (get_investigation_status regA denvZero simOff 7 "INV-18") "status"
      = some (Value.s (statusFor ((7 : Rat) - invA.created_at)).1) :=
  status_determined_by_elapsed regA denvZero simOff 7 "INV-18" invA rfl

/-- Claim C6: when the OpenAI reply generation succeeds but the extraction
response is not parseable (the `json.loads` call raises), the simulator
swallows the error and returns the safe default: `is_decision_maker` is
true, there is no forwarding next action, and the conversation log is well
formed — buyer outreach first, then the simulated supplier reply, then the
canned fallback supplier message. -/
theorem malformed_extraction_safe_default (env : SimEnv)
    (supplier_name supplier_email : String) (r : BuyerRequirement) (reply : String)
    (hO : env.openaiAvailable = true)
    (hR : env.replyOf supplier_name supplier_email = Except.ok reply)
    (hE : env.extractOf supplier_name supplier_email = Except.error ()) :
    (simulate_email_conversation env supplier_name supplier_email r).is_decision_maker = true
    ∧ (simulate_email_conversation env supplier_name supplier_email r).next_action = none
    ∧ (simulate_email_conversation env supplier_name supplier_email r).conversation
        = [{ role := "buyer", content := outreachMessage r, timestamp := env.now },
           { role := "supplier", content := reply, timestamp := env.now },
           { role := "supplier", content := fallbackReply, timestamp := env.now }] := by
  refine ⟨?_, ?_, ?_⟩ <;> simp [simulate_email_conversation, hO, hR, hE]

/-- Claim C6 witness: the malformed-extraction fallback evaluated at a
concrete supplier and requirement. -/
theorem malformed_extraction_safe_default_witness :
    (simulate_email_conversation simMalformed "TechSupply" "sales@techsupply.com" reqA).is_decision_maker
      = true
    ∧ (simulate_email_conversation simMalformed "TechSupply" "sales@techsupply.com" reqA).next_action
      = none :=
  ⟨(malformed_extraction_safe_default simMalformed "TechSupply" "sales@techsupply.com" reqA
      "Thanks, I handle procurement." rfl rfl rfl).1,
   (malformed_extraction_safe_default simMalformed "TechSupply" "sales@techsupply.com" reqA
      "Thanks, I handle procurement." rfl rfl rfl).2.1⟩

/-- Claim C7 counterexample: two raw items share the contact email
`x@acme.com`; the first-seen record (Alice Smith, no LinkedIn URL) is
discarded, and the adapter's single output record is built from the later
record — its name derives from "Bob Jones" and its website is Bob's
LinkedIn URL — so the first-seen record does not win, and a record that
does carry a contact email was discarded for lacking a LinkedIn URL. -/
theorem dedup_first_seen_counterexample :
    itemsSharedEmail.map (fun it => it.emailField)
      = [some "x@acme.com", some "x@acme.com"]
    ∧ (parse_exa_webset_items ⟨true, fun _ => Except.ok itemsSharedEmail⟩ simOff "ws1" reqA).map
        (fun sm => sm.name) = ["Acme Bob"]
    ∧ (parse_exa_webset_items ⟨true, fun _ => Except.ok itemsSharedEmail⟩ simOff "ws1" reqA).map
        (fun sm => sm.website) = ["https://linkedin.com/in/bob"] := by decide

/-- Claim C7 (amended): the adapter discards every record lacking a truthy
contact email or lacking a truthy LinkedIn string; among the surviving
records the first occurrence of each email wins; output contact emails are
exactly the first 10 such first-occurrence emails in input order, hence
pairwise distinct, and the result holds at most 10 entries, each traceable
to an input record carrying its email and a LinkedIn string. -/
theorem parse_dedup_amended (denv : DiscoveryEnv) (env : SimEnv) (wid : String)
    (r : BuyerRequirement) (data : List RawItem)
    (hx : denv.exaAvailable = true) (hi : denv.itemsOf wid = Except.ok data) :
    (parse_exa_webset_items denv env wid r).map (fun sm => sm.contact_email)
      = (firstEligibleEmails data []).take 10
    ∧ ((parse_exa_webset_items denv env wid r).map (fun sm => sm.contact_email)).Nodup
    ∧ (parse_exa_webset_items denv env wid r).length ≤ 10
    ∧ ∀ sm ∈ parse_exa_webset_items denv env wid r,
        ∃ it ∈ data, it.emailField = some sm.contact_email ∧ it.linkedin.getD "" ≠ "" := by
  have hun : parse_exa_webset_items denv env wid r = parseLoop env r data [] [] := by
    simp [parse_exa_webset_items, hx, hi]
  have hmap := parseLoop_map_email env r data [] [] (by norm_num)
  simp only [List.map_nil, List.nil_append, List.length_nil, Nat.sub_zero] at hmap
  refine ⟨by rw [hun]; exact hmap, ?_, ?_, ?_⟩
  · rw [hun, hmap]
    exact (List.take_sublist _ _).nodup (firstEligibleEmails_nodup data [])
  · have hlen : ((parseLoop env r data [] []).map (fun sm => sm.contact_email)).length ≤ 10 := by
      rw [hmap, List.length_take]
      exact min_le_left _ _
    rw [List.length_map] at hlen
    rw [hun]
    exact hlen
  · intro sm hsm
    rw [hun] at hsm
    rcases parseLoop_mem_source env r data [] [] sm hsm with h | h
    · simp at h
    · exact h

/-- Claim C7 witness: the amended deduplication theorem evaluated on the
concrete shared-email item list. -/
theorem parse_dedup_amended_witness :
    (parse_exa_webset_items ⟨true, fun _ => Except.ok itemsSharedEmail⟩ simOff "ws1" reqA).map
        (fun sm => sm.contact_email)
      = (firstEligibleEmails itemsSharedEmail []).take 10 :=
  (parse_dedup_amended ⟨true, fun _ => Except.ok itemsSharedEmail⟩ simOff "ws1" reqA
      itemsSharedEmail rfl rfl).1

/-- Claim C8 (code-bug evidence): the parser assigns
`match_score = 85 + 2 * (matches already collected)` — the code comment
says "Decreasing scores" but the formula increases — so a webset with nine
eligible records yields scores 85 through 101, and the ninth produced
match carries a score strictly greater than 100, outside both claimed
ranges. -/
theorem match_score_exceeds_100 :
    (parse_exa_webset_items ⟨true, fun _ => Except.ok itemsNine⟩ simOff "ws1" reqA).map
        (fun sm => sm.match_score)
      = [85, 87, 89, 91, 93, 95, 97, 99, 101]
    ∧ ∃ sm ∈ parse_exa_webset_items ⟨true, fun _ => Except.ok itemsNine⟩ simOff "ws1" reqA,
        100 < sm.match_score := by decide

/-- Claim C9: the investigation identifier is `"INV-"` followed by
`abs(hash(email + companyName)) % 10000000` — a number below 10000000
derived solely from contact email and company name — so within one process
(same hash) two requirements agreeing on those two fields, even with
different product descriptions, get the same identifier, and the second
submission overwrites the registry entry with its own fresh
Investigation. -/
theorem investigation_id_email_company_overwrite (env1 env2 : SubmitEnv)
    (reg : Registry) (ws : WebsetMap) (r1 r2 : BuyerRequirement)
    (hh : env1.pyHash = env2.pyHash) (he : r1.email = r2.email)
    (hc : r1.companyName = r2.companyName) :
    investigationId env1.pyHash r1 = investigationId env2.pyHash r2
    ∧ (∃ n : Nat, n < 10000000 ∧ investigationId env1.pyHash r1 = "INV-" ++ toString n)
    ∧ (process_requirements env2 (process_requirements env1 reg ws r1).reg
        (process_requirements env1 reg ws r1).websets r2).reg (investigationId env1.pyHash r1)
      = some { status := "processing", progress := 0, message := initMessage,
               requirement := r2, created_at := env2.now,
               webset_id := (websetOutcome env2).2 } := by
  have hid : investigationId env1.pyHash r1 = investigationId env2.pyHash r2 := by
    unfold investigationId
    rw [hh, he, hc]
  refine ⟨hid, ⟨_, Nat.mod_lt _ (by norm_num), rfl⟩, ?_⟩
  rw [hid]
  simp [process_requirements, Registry.store]

/-- Claim C9 witness: two requirements sharing email and company but with
different product descriptions get the same identifier. -/
theorem investigation_id_email_company_overwrite_witness :
    investigationId sampleHash reqA = investigationId sampleHash reqB :=
  (investigation_id_email_company_overwrite envA envB emptyReg emptyWebsets reqA reqB
      rfl rfl rfl).1

/-- Claim C10: for every identifier present in the registry, the status
field of the response is one of `processing`, `searching`, `completed`,
and in particular never `error`; the `error` status arises solely in the
absent-identifier branch. -/
theorem known_status_never_error (reg : Registry) (denv : DiscoveryEnv) (env : SimEnv)
    (now : Rat) (id : String) (inv : Investigation) (h : reg id = some inv) :
    (respGet (get_investigation_status reg denv env now id) "status"
        = some (Value.s "processing")
      ∨ respGet (get_investigation_status reg denv env now id) "status"
        = some (Value.s "searching")
      ∨ respGet (get_investigation_status reg denv env now id) "status"
        = some (Value.s "completed"))
    ∧ respGet (get_investigation_status reg denv env now id) "status"
      ≠ some (Value.s "error") := by
  have hs := getStatus_status_of_known reg denv env now id inv h
  rcases statusFor_fst_cases (now - inv.created_at) with hc | hc | hc <;> rw [hc] at hs <;>
    exact ⟨by simp [hs], by rw [hs]; simp⟩

/-- Claim C10 witness: a registered identifier polled 7 seconds after
submission does not report `error`. -/
theorem known_status_never_error_witness :
    respGet (get_investigation_status regA denvZero simOff 7 "INV-18") "status"
      ≠ some (Value.s "error") :=
  (known_status_never_error regA denvZero simOff 7 "INV-18" invA rfl).2

end TactoTrack
